import Mathlib

/-!
Verification of the paquo proxy layer (src/paquo/images.py and
src/paquo/objects/projects.py) against its specification.

The Python program wraps an externally managed QuPath project store.  We give a
shallow embedding: the external store state is carried explicitly (metadata of
one entry as an association list, the project as a list of external entries),
Python exceptions become an error enumeration carried in `Except`, and dynamic
typing at the proxy boundary is modelled by the sum type `PyVal`, so that the
`isinstance` checks in the source become pattern matches.
-/

set_option autoImplicit false

namespace Paquo

/-- Python exceptions raised by the code under verification.  The spec names
error kinds, not concrete types: `valueError` and `typeError` are its
`TypeMismatch`, `keyError` is `KeyNotFound`, `unsupportedFile` (the
`Exception("unsupported file")` raised in `_ProjectImageEntriesProxy.add`) is
`UnsupportedFormat`, and `stopIteration` signals iterator exhaustion. -/
inductive PyErr where
  | valueError
  | typeError
  | keyError
  | unsupportedFile
  | stopIteration
deriving DecidableEq, Repr

/-- Metadata of one external entry: the key/value map held by the external
store (`DefaultProjectImageEntry`-side state behind `putMetadataValue`,
`getMetadataValue`, `removeMetadataValue`). -/
abbrev MetaStore := List (String × String)

/-- External store operation behind `entry.putMetadataValue(k, v)`: Java map
put, replacing any existing binding of the key. -/
def putMetadataValue (k v : String) (m : MetaStore) : MetaStore :=
  (k, v) :: m.filter (fun p => p.1 != k)

/-- External store operation behind `entry.removeMetadataValue(k)`: Java map
remove of the key. -/
def removeMetadataValue (k : String) (m : MetaStore) : MetaStore :=
  m.filter (fun p => p.1 != k)

/-- External store operation behind `entry.getMetadataValue(k)`: Java map get,
`none` modelling the Java `null` returned for an absent key. -/
def getMetadataValue (k : String) (m : MetaStore) : Option String :=
  (m.find? (fun p => p.1 == k)).map (fun p => p.2)

/-- One external `DefaultProjectImageEntry` as far as the proxy layer observes
it: id, image name, thumbnail (an opaque image coded as a `Nat`), metadata. -/
structure JEntry where
  id : Nat
  imageName : String
  thumbnail : Option Nat
  metadata : MetaStore
deriving DecidableEq, Repr

/-- Modelled from the spec: `paquo.objects.images.ProjectImageEntry` (imported
by src/paquo/objects/projects.py) is not under src/; per spec section 4.3 an
Entry Handle wraps one external entry reference, so we model it as that
wrapper. -/
structure EntryHandle where
  javaObject : JEntry
deriving DecidableEq, Repr

/-- Dynamically typed Python values crossing the proxy boundary; the
`isinstance` checks in the source become matches on the constructor. -/
inductive PyVal where
  | str (s : String)
  | int (n : Int)
  | pyNone
  | entry (e : JEntry)
  | projEntry (h : EntryHandle)
deriving DecidableEq, Repr

/-- The Python `isinstance(x, str)` test. -/
def PyVal.isStr : PyVal → Bool
  | .str _ => true
  | _ => false

/-- The Python `isinstance(x, ProjectImageEntry)` test. -/
def PyVal.isProjEntry : PyVal → Bool
  | .projEntry _ => true
  | _ => false

/-- Embedding of `_ProjectImageEntryMetadata.__setitem__` (images.py 17-22):
validate that key and value are strings (raising `ValueError` otherwise,
before anything reaches the external store), then write through with
`putMetadataValue`.  The returned pair is (store after the call, outcome). -/
def metaSetitem (k v : PyVal) (m : MetaStore) : MetaStore × Except PyErr Unit :=
  match k with
  | .str ks =>
    match v with
    | .str vs => (putMetadataValue ks vs m, .ok ())
    | _ => (m, .error .valueError)
  | _ => (m, .error .valueError)

/-- Embedding of `_ProjectImageEntryMetadata.__delitem__` (images.py 24-27):
validate the key is a string, then `removeMetadataValue`. -/
def metaDelitem (k : PyVal) (m : MetaStore) : MetaStore × Except PyErr Unit :=
  match k with
  | .str ks => (removeMetadataValue ks m, .ok ())
  | _ => (m, .error .valueError)

/-- Embedding of `_ProjectImageEntryMetadata.__getitem__` (images.py 29-35):
validate the key is a string, read through `getMetadataValue`, and raise
`KeyError` when the store returns null. -/
def metaGetitem (k : PyVal) (m : MetaStore) : Except PyErr String :=
  match k with
  | .str ks =>
    match getMetadataValue ks m with
    | none => .error .keyError
    | some v => .ok v
  | _ => .error .valueError

/-- External image data held by `QuPathProjectImageEntry._image_data`: the
dirty flag observed through `isChanged()` and an opaque hierarchy source
observed through `getHierarchy()`. -/
structure ImageData where
  isChanged : Bool
  hierarchySrc : Nat
deriving DecidableEq, Repr

/-- A `QuPathPathObjectHierarchy` view, wrapping the Java hierarchy object. -/
structure Hierarchy where
  javaHierarchy : Nat
deriving DecidableEq, Repr

/-- State of one `QuPathProjectImageEntry` plus the external store slots it
touches: its image data, what the store last saved for it (written by
`saveImageData`), and the `cached_property` slot backing `hierarchy`. -/
structure EntryState where
  imageData : ImageData
  savedData : Option ImageData
  hierarchyCache : Option Hierarchy
deriving DecidableEq, Repr

/-- Embedding of `QuPathProjectImageEntry.save` (images.py 123-126): call
`saveImageData` only when `isChanged()` reports true.  The second component
counts the writes that reach the external store (0 or 1). -/
def entrySave (s : EntryState) : EntryState × Nat :=
  if s.imageData.isChanged then ({ s with savedData := some s.imageData }, 1)
  else (s, 0)

/-- Embedding of the `cached_property` access `QuPathProjectImageEntry.hierarchy`
(images.py 115-118): on a miss build `QuPathPathObjectHierarchy` from the
image data and store it in the instance slot; on a hit return the stored view.
The third component counts how many times the build path ran (0 or 1). -/
def entryHierarchy (s : EntryState) : Hierarchy × EntryState × Nat :=
  match s.hierarchyCache with
  | some h => (h, s, 0)
  | none =>
    let h : Hierarchy := { javaHierarchy := s.imageData.hierarchySrc }
    (h, { s with hierarchyCache := some h }, 1)

/-- Embedding of the property `QuPathProjectImageEntry.image_name_original`
(images.py 82-86): `getOriginalImageName()` yields Java null (`none`) or a
string; the Python guard `if org_name` treats both null and the empty string
as falsy, so both map to `None`. -/
def imageNameOriginal (orgName : Option String) : Option String :=
  match orgName with
  | none => none
  | some s => if s = "" then none else some s

/-- A QuPath `ImageServer` as the proxy layer observes it: plane count
`nZSlices()`, the display name `ServerTools.getDisplayableImageName` computes
for it, and `getDefaultThumbnail(zPos, tPos)` as a function to opaque images. -/
structure Server where
  nZSlices : Nat
  displayName : String
  getDefaultThumbnail : Nat → Nat → Nat

/-- A QuPath `ServerBuilder`: `build()` yields a server. -/
structure Builder where
  build : Server

/-- A `UriImageSupport` instance: `getBuilders()` lists candidate builders. -/
structure Support where
  getBuilders : List Builder

/-- The external collaborators `_ProjectImageEntriesProxy.add` consults:
`pathlib.Path(...).absolute()`, `ImageServerProvider.getPreferredUriImageSupport`
(with the fixed `BufferedImage` class argument elided, `none` for a falsy
support), and the id the store assigns to the next registered entry. -/
structure Env where
  absolute : String → String
  getPreferredUriImageSupport : String → Option Support
  freshId : Nat

/-- The external `DefaultProject` state the proxy observes: its entry list. -/
structure ProjState where
  entries : List JEntry
deriving DecidableEq, Repr

/-- Embedding of `_ProjectImageEntriesProxy.add` (objects/projects.py 31-50):
resolve the path, query format detection (raising `unsupportedFile` when the
support is falsy or offers no builder), register a new entry via
`project.addImage(builder)`, then set its name from the built server and its
thumbnail from `getDefaultThumbnail(nZSlices() // 2, 0)`, and return a
`ProjectImageEntry` handle.  Returns (project state after the call, outcome);
on an exception the state component is the store as the exception left it. -/
def projAdd (env : Env) (filename : String) (proj : ProjState) :
    ProjState × Except PyErr EntryHandle :=
  let imgPath := env.absolute filename
  match env.getPreferredUriImageSupport imgPath with
  | none => (proj, .error .unsupportedFile)
  | some support =>
    match support.getBuilders with
    | [] => (proj, .error .unsupportedFile)
    | serverBuilder :: _ =>
      let entry0 : JEntry :=
        { id := env.freshId, imageName := "", thumbnail := none, metadata := [] }
      let server := serverBuilder.build
      let entry1 := { entry0 with imageName := server.displayName }
      let thumbnail := server.getDefaultThumbnail (server.nZSlices / 2) 0
      let entry2 := { entry1 with thumbnail := some thumbnail }
      ({ entries := proj.entries ++ [entry2] }, .ok { javaObject := entry2 })

/-- Embedding of `_ProjectImageEntriesProxy.__contains__` (objects/projects.py
61-64): values failing the `isinstance` check return `False`, and for genuine
external entries the body is literally `return False  # FIXME`. -/
def proxyContains (_proj : ProjState) (x : PyVal) : Bool :=
  match x with
  | .entry _ => false
  | _ => false

/-- The iteration state the proxy keeps on itself: the single `self._it`
cursor (`iter(())`, i.e. empty, at construction). -/
structure IterProxy where
  cursor : List JEntry
deriving DecidableEq, Repr

/-- Embedding of `_ProjectImageEntriesProxy.__iter__` (objects/projects.py
66-68): overwrite `self._it` with a fresh iterator over the store's image list
and return `self` — the result is the same proxy with its one cursor reset. -/
def proxyIter (proj : ProjState) (p : IterProxy) : IterProxy :=
  { p with cursor := proj.entries }

/-- Embedding of `_ProjectImageEntriesProxy.__next__` (objects/projects.py
70-72): advance the shared cursor and wrap the produced external entry in a
`ProjectImageEntry` handle. -/
def proxyNext (p : IterProxy) : Except PyErr (EntryHandle × IterProxy) :=
  match p.cursor with
  | [] => .error .stopIteration
  | e :: rest => .ok ({ javaObject := e }, { p with cursor := rest })

/-- The `MutableSet` mixin `pop` as it runs on this proxy: `iter(self)` resets
the cursor, `next(it)` yields the first entry (raising `KeyError` when the
store is empty), then `discard(value)` — a literal `pass` in the source
(objects/projects.py 24-25) — removes nothing. -/
def proxyPop (proj : ProjState) (p : IterProxy) :
    (ProjState × IterProxy) × Except PyErr EntryHandle :=
  let p1 := proxyIter proj p
  match proxyNext p1 with
  | .error _ => ((proj, p1), .error .keyError)
  | .ok (v, p2) => ((proj, p2), .ok v)

/-- The `MutableSet` mixin `clear` as it runs on this proxy: pop until
`KeyError`.  Because `discard` is a no-op the store never shrinks, so on a
non-empty store the loop never terminates; `fuel` bounds the unrolling and
`none` models that divergence. -/
def proxyClearFuel : Nat → ProjState → IterProxy → Option (ProjState × IterProxy)
  | 0, _, _ => none
  | Nat.succ n, proj, p =>
    match proxyPop proj p with
    | (s, .error _) => some s
    | ((proj1, p1), .ok _) => proxyClearFuel n proj1 p1

/-- Embedding of the `QuPathProject.images` setter (objects/projects.py
90-98): validate every element is a `ProjectImageEntry` (raising `TypeError`
before any mutation otherwise), call `self.images.clear()`, then add each
element of the local list `_images` — which the source never populates, so the
final loop adds nothing.  `none` models a diverging `clear()`. -/
def imagesSetter (fuel : Nat) (proj : ProjState) (p : IterProxy)
    (images : List PyVal) : Option ((ProjState × IterProxy) × Except PyErr Unit) :=
  if images.all PyVal.isProjEntry then
    match proxyClearFuel fuel proj p with
    | none => none
    | some (proj1, p1) => some ((proj1, p1), .ok ())
  else some ((proj, p), .error .typeError)

/-! Concrete sample values used by witnesses and counterexample evaluations. -/

/-- A concrete external entry. -/
def sampleJEntry : JEntry := { id := 1, imageName := "img", thumbnail := none, metadata := [] }

/-- A concrete Entry Handle wrapping `sampleJEntry`. -/
def sampleHandle : EntryHandle := { javaObject := sampleJEntry }

/-- A concrete entry state whose image data is unchanged and whose hierarchy
cache is empty, as after `QuPathProjectImageEntry.__init__`. -/
def sampleEntryStateClean : EntryState :=
  { imageData := { isChanged := false, hierarchySrc := 3 },
    savedData := none, hierarchyCache := none }

/-- A concrete image server. -/
def sampleServer : Server :=
  { nZSlices := 5, displayName := "sample.tiff", getDefaultThumbnail := fun z t => 100 * z + t }

/-- A concrete builder producing `sampleServer`. -/
def sampleBuilder : Builder := { build := sampleServer }

/-- A concrete support offering exactly one builder. -/
def sampleSupport : Support := { getBuilders := [sampleBuilder] }

/-- An environment whose format detection always finds `sampleSupport`. -/
def sampleEnv : Env :=
  { absolute := fun s => String.append "/abs/" s,
    getPreferredUriImageSupport := fun _ => some sampleSupport,
    freshId := 7 }

/-- An environment whose format detection never finds a support. -/
def sampleEnvNone : Env :=
  { absolute := fun s => s,
    getPreferredUriImageSupport := fun _ => none,
    freshId := 0 }

/-- Searching for a key among the entries from which that key was filtered out
finds nothing. -/
theorem find?_filter_bne_eq_none (m : MetaStore) (k : String) :
    (m.filter (fun p => p.1 != k)).find? (fun p => p.1 == k) = none := by
  rw [List.find?_eq_none]
  intro p hp
  have hne := (List.mem_filter.mp hp).2
  simp only [bne_iff_ne, ne_eq] at hne
  simp [hne]

/-- C1: for every string key k and string value v, Metadata Proxy set(k, v)
followed by get(k) returns v, and delete(k) followed by get(k) fails with
KeyNotFound (the `KeyError` of images.py line 34). -/
theorem meta_set_get_delete_get (k v : String) (m : MetaStore) :
    metaGetitem (.str k) (metaSetitem (.str k) (.str v) m).1 = .ok v ∧
    metaGetitem (.str k) (metaDelitem (.str k) m).1 = .error .keyError := by
  constructor
  · simp [metaSetitem, metaGetitem, putMetadataValue, getMetadataValue, List.find?_cons]
  · show metaGetitem (.str k) (removeMetadataValue k m) = .error .keyError
    simp only [metaGetitem, getMetadataValue, removeMetadataValue]
    rw [find?_filter_bne_eq_none]
    rfl

/-- C5: for every key k and value v where k or v is not a string, Metadata
Proxy set(k, v) fails with TypeMismatch (the `ValueError` of images.py lines
18-21) and the store is returned unmodified: the validation precedes the
`putMetadataValue` call, so no write reaches the external store. -/
theorem meta_set_non_string_rejected (k v : PyVal) (m : MetaStore)
    (h : k.isStr = false ∨ v.isStr = false) :
    metaSetitem k v m = (m, .error .valueError) := by
  cases k <;> cases v <;> simp_all [PyVal.isStr, metaSetitem]

/-- Witness for C5 at the non-string key `int 0`. -/
theorem meta_set_non_string_rejected_witness :
    (PyVal.int 0).isStr = false ∧
    metaSetitem (.int 0) (.str "a") [] = ([], .error .valueError) :=
  ⟨rfl, meta_set_non_string_rejected (.int 0) (.str "a") [] (Or.inl rfl)⟩

/-- C6: save() writes the entry's image data back to the external store if and
only if the store reports it changed; when no change is reported, save()
performs zero writes and leaves the state untouched. -/
theorem save_writes_iff_changed (s : EntryState) :
    ((entrySave s).2 = 1 ↔ s.imageData.isChanged = true) ∧
    (s.imageData.isChanged = false → entrySave s = (s, 0)) ∧
    (s.imageData.isChanged = true →
      (entrySave s).1 = { s with savedData := some s.imageData } ∧ (entrySave s).2 = 1) := by
  cases hs : s.imageData.isChanged <;> simp [entrySave, hs]

/-- Witness for C6 on an unchanged entry: zero writes, state untouched. -/
theorem save_writes_iff_changed_witness :
    sampleEntryStateClean.imageData.isChanged = false ∧
    entrySave sampleEntryStateClean = (sampleEntryStateClean, 0) :=
  ⟨rfl, (save_writes_iff_changed sampleEntryStateClean).2.1 rfl⟩

/-- C7: on an Entry Handle whose cache slot is still empty, the first access
to hierarchy runs the build path exactly once, and a second access returns the
very same instance with the state unchanged and zero further builds — hence
every subsequent access repeats that same result. -/
theorem hierarchy_cached_once (s : EntryState) (h : s.hierarchyCache = none) :
    (entryHierarchy s).2.2 = 1 ∧
    entryHierarchy (entryHierarchy s).2.1 =
      ((entryHierarchy s).1, (entryHierarchy s).2.1, 0) := by
  simp [entryHierarchy, h]

/-- Witness for C7 on a concrete fresh entry state. -/
theorem hierarchy_cached_once_witness :
    sampleEntryStateClean.hierarchyCache = none ∧
    ((entryHierarchy sampleEntryStateClean).2.2 = 1 ∧
      entryHierarchy (entryHierarchy sampleEntryStateClean).2.1 =
        ((entryHierarchy sampleEntryStateClean).1,
          (entryHierarchy sampleEntryStateClean).2.1, 0)) :=
  ⟨rfl, hierarchy_cached_once sampleEntryStateClean rfl⟩

/-- C9: when the store's original-name record is the empty string,
image_name_original returns None exactly as when no record exists, and a
string is returned only when the record is non-empty. -/
theorem image_name_original_empty_is_absent (s : String) :
    imageNameOriginal (some "") = none ∧
    imageNameOriginal none = none ∧
    (s ≠ "" → imageNameOriginal (some s) = some s) := by
  refine ⟨rfl, rfl, fun h => ?_⟩
  simp [imageNameOriginal, h]

/-- Witness for C9 at the non-empty record x. -/
theorem image_name_original_empty_is_absent_witness :
    ("x" : String) ≠ "" ∧
    (imageNameOriginal (some "") = none ∧
      imageNameOriginal none = none ∧
      (("x" : String) ≠ "" → imageNameOriginal (some "x") = some "x")) :=
  ⟨by decide, image_name_original_empty_is_absent "x"⟩

/-- C3: when format detection yields at least one builder for the file, add
registers exactly one new entry in the store, gives it the display name of the
server built from the chosen (first) builder and the thumbnail taken from the
middle z-plane (nZSlices // 2) with channel 0, and returns an Entry Handle
wrapping that entry; the collection length grows by exactly 1. -/
theorem add_supported (env : Env) (filename : String) (proj : ProjState)
    (sup : Support) (b : Builder) (bs : List Builder)
    (hsup : env.getPreferredUriImageSupport (env.absolute filename) = some sup)
    (hbs : sup.getBuilders = b :: bs) :
    (projAdd env filename proj).1.entries.length = proj.entries.length + 1 ∧
    ∃ e : JEntry,
      (projAdd env filename proj).2 = .ok { javaObject := e } ∧
      (projAdd env filename proj).1.entries = proj.entries ++ [e] ∧
      e.imageName = b.build.displayName ∧
      e.thumbnail = some (b.build.getDefaultThumbnail (b.build.nZSlices / 2) 0) ∧
      e.metadata = [] := by
  simp only [projAdd, hsup, hbs]
  exact ⟨by simp, _, rfl, rfl, rfl, rfl, rfl⟩

/-- Witness for C3 on an empty project with a one-builder environment. -/
theorem add_supported_witness :
    sampleEnv.getPreferredUriImageSupport (sampleEnv.absolute "sample.tiff") =
        some sampleSupport ∧
    sampleSupport.getBuilders = [sampleBuilder] ∧
    ((projAdd sampleEnv "sample.tiff" { entries := [] }).1.entries.length =
        ({ entries := [] } : ProjState).entries.length + 1 ∧
      ∃ e : JEntry,
        (projAdd sampleEnv "sample.tiff" { entries := [] }).2 = .ok { javaObject := e } ∧
        (projAdd sampleEnv "sample.tiff" { entries := [] }).1.entries =
          ({ entries := [] } : ProjState).entries ++ [e] ∧
        e.imageName = sampleBuilder.build.displayName ∧
        e.thumbnail = some (sampleBuilder.build.getDefaultThumbnail
          (sampleBuilder.build.nZSlices / 2) 0) ∧
        e.metadata = []) :=
  ⟨rfl, rfl,
    add_supported sampleEnv "sample.tiff" { entries := [] } sampleSupport sampleBuilder [] rfl rfl⟩

/-- C4: when format detection yields no builder for the file (no support, or a
support with an empty builder list), add fails with UnsupportedFormat (the
`Exception("unsupported file")`) and the store is untouched: the collection
length is unchanged. -/
theorem add_unsupported (env : Env) (filename : String) (proj : ProjState)
    (h : env.getPreferredUriImageSupport (env.absolute filename) = none ∨
      ∃ sup, env.getPreferredUriImageSupport (env.absolute filename) = some sup ∧
        sup.getBuilders = []) :
    projAdd env filename proj = (proj, .error .unsupportedFile) ∧
    (projAdd env filename proj).1.entries.length = proj.entries.length := by
  have h1 : projAdd env filename proj = (proj, .error .unsupportedFile) := by
    rcases h with h | ⟨sup, hsup, hbs⟩
    · simp [projAdd, h]
    · simp [projAdd, hsup, hbs]
  exact ⟨h1, by rw [h1]⟩

/-- Witness for C4 on a one-entry project with a detection-free environment. -/
theorem add_unsupported_witness :
    sampleEnvNone.getPreferredUriImageSupport (sampleEnvNone.absolute "notes.txt") = none ∧
    (projAdd sampleEnvNone "notes.txt" { entries := [sampleJEntry] } =
        ({ entries := [sampleJEntry] }, .error .unsupportedFile) ∧
      (projAdd sampleEnvNone "notes.txt" { entries := [sampleJEntry] }).1.entries.length =
        ({ entries := [sampleJEntry] } : ProjState).entries.length) :=
  ⟨rfl, add_unsupported sampleEnvNone "notes.txt" { entries := [sampleJEntry] } (Or.inl rfl)⟩

/-- C2 is false of the code: in a project whose store holds the entry
`sampleJEntry`, contains applied to that very entry still returns false — the
body of `__contains__` is `return False  # FIXME`, so membership is reported
unconditionally false, which the spec flags as a known defect (section 9). -/
theorem contains_false_for_member :
    sampleJEntry ∈ ({ entries := [sampleJEntry] } : ProjState).entries ∧
    proxyContains { entries := [sampleJEntry] } (.entry sampleJEntry) = false :=
  ⟨List.mem_singleton.mpr rfl, rfl⟩

/-- C8 is false of the code: assigning the one-element replacement sequence
[sampleHandle] to an empty project succeeds yet adds nothing — the validated
elements are collected into the local `_images` list, which the source never
populates (it stays `[]`), so the final add loop runs zero times and the
replacement entries are silently dropped. -/
theorem images_setter_drops_replacement :
    imagesSetter 1 { entries := [] } { cursor := [] } [PyVal.projEntry sampleHandle] =
      some ((({ entries := [] } : ProjState), ({ cursor := [] } : IterProxy)), .ok ()) ∧
    [PyVal.projEntry sampleHandle].length = 1 :=
  ⟨rfl, rfl⟩

/-- C10: the Entry Collection Proxy is its own iterator with one shared
cursor: iterate() writes the store's current entry list into that single
cursor and hands back the proxy itself, so the state it produces is the same
whatever traversal was in progress — a second iterate() redirects any
in-progress traversal, and at most one independent traversal can be live. -/
theorem iter_single_shared_cursor (proj : ProjState) (p q : IterProxy) :
    proxyIter proj p = proxyIter proj q ∧
    (proxyIter proj p).cursor = proj.entries :=
  ⟨rfl, rfl⟩

end Paquo
